import Mathlib

/-!
Shallow embedding of the `bank-account` Miden contract
(`src/contracts/bank-account/src/lib.rs`) and the execution-environment
primitives it calls (vault custody and output-note creation).

Field elements (Felt) are modelled as natural numbers; the Miden field is
the Goldilocks prime p = 2^64 - 2^32 + 1 and Felt addition/subtraction wrap
modulo p.  Storage slot 0 (the initialization flag word) and slot 1 (the
balances map) are modelled explicitly.  Fallible operations return
`Except Err _`; per the atomic-commit contract of the environment an error
aborts the whole transaction with no state mutation, which the step
semantics (`step`) makes explicit by returning the unchanged state.
-/

/-- The Goldilocks prime 2^64 - 2^32 + 1: the modulus of the Miden field. -/
def P : Nat := 18446744069414584321

/-- Felt addition: wraps modulo the field prime. -/
def feltAdd (a b : Nat) : Nat := (a + b) % P

/-- Felt subtraction: wraps modulo the field prime. -/
def feltSub (a b : Nat) : Nat := (a + (P - b % P)) % P

/-- Maximum allowed deposit amount per transaction
(`MAX_DEPOSIT_AMOUNT` in `bank-account/src/lib.rs`). -/
def MAX_DEPOSIT_AMOUNT : Nat := 1000000

/-- A Miden word: four field elements. -/
structure Word where
  w0 : Nat
  w1 : Nat
  w2 : Nat
  w3 : Nat
deriving DecidableEq, Repr

/-- An account identifier: two field elements.
`pre` models the source field `prefix` and `suf` the source field `suffix`. -/
structure AccountId where
  pre : Nat
  suf : Nat
deriving DecidableEq, Repr

/-- A fungible asset.  Inner word layout: `[amount, 0, faucet_suffix, faucet_prefix]`. -/
structure Asset where
  inner : Word
deriving DecidableEq, Repr

/-- The fungible-asset class of an asset: its faucet id `(prefix, suffix)`,
read from inner word positions 3 and 2. -/
def assetFid (a : Asset) : Nat × Nat := (a.inner.w3, a.inner.w2)

/-- The amount carried by a fungible asset: inner word position 0. -/
def assetAmount (a : Asset) : Nat := a.inner.w0

/-- Error taxonomy of the core (spec section 7).  `InsufficientFunds` and
`MalformedInput` appear in the taxonomy but are never produced by the
`bank-account` code. -/
inductive Err where
  | AlreadyInitialized
  | NotInitialized
  | DepositTooLarge
  | InsufficientFunds
  | AssetNotHeld
  | MalformedInput
deriving DecidableEq, Repr

/-- A recipient commitment, `Recipient::compute(serial_num, script_root, inputs)`.
The underlying hash is a hidden collision-resistant primitive of the
environment, so it is modelled as the free constructor over its three
logical components: two recipients are equal exactly when their serial
number, script root and ordered input vector are equal. -/
structure Recipient where
  serialNum : Word
  scriptRoot : Word
  inputs : List Nat
deriving DecidableEq, Repr

/-- An outgoing note as assembled by `output_note::create` plus
`output_note::add_asset`. -/
structure Note where
  tag : Nat
  aux : Nat
  noteType : Nat
  execHint : Nat
  recipient : Recipient
  assets : List Asset
deriving DecidableEq, Repr

/-- The vault of the bank account: fungible amount held per faucet id. -/
def Vault : Type := Nat × Nat → Nat

/-- Modelled from the spec: `add_asset(asset)` (section 6 outbound calls,
`native_account::add_asset` in the source) adds the units of the asset to the
vault holding for that faucet. -/
def addAsset (v : Vault) (a : Asset) : Vault :=
  fun f => if f = assetFid a then v f + assetAmount a else v f

/-- Modelled from the spec: `remove_asset(asset)` (section 4.4,
`native_account::remove_asset` in the source) removes the units of the asset
from the vault, failing with `AssetNotHeld` if the vault lacks them. -/
def removeAsset (v : Vault) (a : Asset) : Except Err Vault :=
  if assetAmount a ≤ v (assetFid a) then
    .ok (fun f => if f = assetFid a then v f - assetAmount a else v f)
  else
    .error .AssetNotHeld

/-- The bank account state: storage slot 0 (`initialized` flag word),
storage slot 1 (`balances` map, defaulting to 0 for unseen keys), and
the asset vault of the account. -/
structure Bank where
  initialized : Word
  balances : Word → Nat
  vault : Vault

/-- The P2ID note script root digest (`Bank::p2id_note_root`). -/
def p2id_note_root : Word :=
  ⟨15783632360113277539, 7403765918285273520, 15691985194755641846, 10399643920503194563⟩

/-- The balances-map key built by `deposit` and `withdraw`:
`[depositor.prefix, depositor.suffix, asset.inner[3], asset.inner[2]]`. -/
def balanceKey (d : AccountId) (a : Asset) : Word :=
  ⟨d.pre, d.suf, a.inner.w3, a.inner.w2⟩

/-- `Bank::initialize`: asserts slot 0 word position 0 is 0, then writes
`[1, 0, 0, 0]` to slot 0. -/
def Bank.initializeBank (b : Bank) : Except Err Bank :=
  if b.initialized.w0 = 0 then
    .ok { b with initialized := ⟨1, 0, 0, 0⟩ }
  else
    .error .AlreadyInitialized

/-- `Bank::require_initialized`: asserts slot 0 word position 0 is 1. -/
def Bank.require_initialized (b : Bank) : Except Err Unit :=
  if b.initialized.w0 = 1 then .ok () else .error .NotInitialized

/-- `Bank::get_balance`: reads the balances map at key
`[depositor.prefix, depositor.suffix, 0, 0]`. -/
def Bank.get_balance (b : Bank) (depositor : AccountId) : Nat :=
  b.balances ⟨depositor.pre, depositor.suf, 0, 0⟩

/-- `Bank::deposit`: requires initialization, checks the amount against
`MAX_DEPOSIT_AMOUNT`, credits the balances map at `balanceKey` with
wrapping Felt addition, then adds the asset to the vault. -/
def Bank.deposit (b : Bank) (depositor : AccountId) (deposit_asset : Asset) :
    Except Err Bank :=
  match b.require_initialized with
  | .error e => .error e
  | .ok _ =>
    if assetAmount deposit_asset ≤ MAX_DEPOSIT_AMOUNT then
      let key := balanceKey depositor deposit_asset
      .ok { b with
            balances := fun k =>
              if k = key then feltAdd (b.balances key) (assetAmount deposit_asset)
              else b.balances k,
            vault := addAsset b.vault deposit_asset }
    else
      .error .DepositTooLarge

/-- `Bank::create_p2id_note`: computes the recipient commitment from the
serial number, the P2ID script root and the 8-element input vector
`[recipient.suffix, recipient.prefix, 0, 0, 0, 0, 0, 0]`, creates one
output note, removes the asset from the vault and attaches it to the note. -/
def Bank.create_p2id_note (b : Bank) (serial_num : Word) (asset : Asset)
    (recipient_id : AccountId) (tag aux note_type : Nat) :
    Except Err (Bank × List Note) :=
  let recipient : Recipient :=
    { serialNum := serial_num
      scriptRoot := p2id_note_root
      inputs := [recipient_id.suf, recipient_id.pre, 0, 0, 0, 0, 0, 0] }
  match removeAsset b.vault asset with
  | .error e => .error e
  | .ok v =>
    .ok ({ b with vault := v },
         [{ tag := tag, aux := aux, noteType := note_type, execHint := 0,
            recipient := recipient, assets := [asset] }])

/-- `Bank::withdraw`: debits the balances map at `balanceKey` with wrapping
Felt subtraction (no initialization check and no balance pre-check in the
source), then creates the P2ID note.  Felt arguments `tag`, `aux`,
`note_type` are forwarded to the note. -/
def Bank.withdraw (b : Bank) (depositor : AccountId) (withdraw_asset : Asset)
    (serial_num : Word) (tag aux note_type : Nat) :
    Except Err (Bank × List Note) :=
  let key := balanceKey depositor withdraw_asset
  let b1 : Bank :=
    { b with
      balances := fun k =>
        if k = key then feltSub (b.balances key) (assetAmount withdraw_asset)
        else b.balances k }
  b1.create_p2id_note serial_num withdraw_asset depositor tag aux note_type

/-- An entry-point invocation: one logical transaction. -/
inductive Call where
  | init : Call
  | deposit : AccountId → Asset → Call
  | withdraw : AccountId → Asset → Word → Nat → Nat → Nat → Call
deriving DecidableEq, Repr

/-- One transaction under the atomic-commit contract of the environment
(spec section 5): on any error the whole operation is rejected and the
state is unchanged, with no note emitted. -/
def step (b : Bank) : Call → Bank × List Note
  | .init =>
    match b.initializeBank with
    | .ok b2 => (b2, [])
    | .error _ => (b, [])
  | .deposit d a =>
    match b.deposit d a with
    | .ok b2 => (b2, [])
    | .error _ => (b, [])
  | .withdraw d a sn tg ax nt =>
    match b.withdraw d a sn tg ax nt with
    | .ok r => r
    | .error _ => (b, [])

/-- Run a sequence of transactions. -/
def exec (b : Bank) : List Call → Bank
  | [] => b
  | c :: cs => exec (step b c).1 cs

/-- A freshly constructed bank account: slot 0 zeroed, empty map, empty vault
(as in the `AccountCreationConfig` of the integration tests). -/
def freshBank : Bank :=
  { initialized := ⟨0, 0, 0, 0⟩, balances := fun _ => 0, vault := fun _ => 0 }

/-- Amount credited to balances-map key `k` by one call in state `b`
(zero when the call is not a deposit, fails, or targets another key). -/
def creditOf (b : Bank) (c : Call) (k : Word) : Nat :=
  match c with
  | .deposit d a =>
    match b.deposit d a with
    | .ok _ => if balanceKey d a = k then assetAmount a else 0
    | .error _ => 0
  | _ => 0

/-- Amount debited from balances-map key `k` by one call in state `b`
(zero when the call is not a withdraw, fails, or targets another key). -/
def debitOf (b : Bank) (c : Call) (k : Word) : Nat :=
  match c with
  | .withdraw d a sn tg ax nt =>
    match b.withdraw d a sn tg ax nt with
    | .ok _ => if balanceKey d a = k then assetAmount a else 0
    | .error _ => 0
  | _ => 0

/-- Total amount credited to key `k` over a call sequence started in `b`. -/
def credits (b : Bank) : List Call → Word → Nat
  | [], _ => 0
  | c :: cs, k => creditOf b c k + credits (step b c).1 cs k

/-- Total amount debited from key `k` over a call sequence started in `b`. -/
def debits (b : Bank) : List Call → Word → Nat
  | [], _ => 0
  | c :: cs, k => debitOf b c k + debits (step b c).1 cs k

/-- Whether an `Except` result is a success. -/
def isOkE {α : Type} (e : Except Err α) : Bool :=
  match e with
  | .ok _ => true
  | .error _ => false

/-- The success payload of an `Except` result, with a fallback default. -/
def okOr {α : Type} (e : Except Err α) (dflt : α) : α :=
  match e with
  | .ok r => r
  | .error _ => dflt

/-- Concrete depositor D of the end-to-end scenarios. -/
def dD : AccountId := ⟨1, 2⟩

/-- Concrete second participant E, who never deposits. -/
def dE : AccountId := ⟨3, 4⟩

/-- Asset X in the amount of 1000 units; its faucet id is (prefix 7, suffix 9). -/
def assetX1000 : Asset := ⟨⟨1000, 0, 9, 7⟩⟩

/-- Asset X in the amount of 600 units. -/
def assetX600 : Asset := ⟨⟨600, 0, 9, 7⟩⟩

/-- An oversized asset: 2,000,000 units of X, twice the deposit limit (scenario D). -/
def assetXBig : Asset := ⟨⟨2000000, 0, 9, 7⟩⟩

/-- A concrete serial number for P2ID output notes. -/
def snW : Word := ⟨11, 12, 13, 14⟩

/-- A freshly initialized, empty bank. -/
def sInit : Bank := exec freshBank [.init]

/-- Scenario A state: initialized, then D deposited 1000 units of asset X. -/
def sAB : Bank := exec freshBank [.init, .deposit dD assetX1000]

/-- Scenario A followed by an overdraft: E (stored balance 0) withdraws
600 units of asset X. -/
def callsABW : List Call :=
  [.init, .deposit dD assetX1000, .withdraw dE assetX600 snW 0 0 1]

/-- The overdraft sequence followed by a deposit of 1000 by E. -/
def callsABWD : List Call := callsABW ++ [.deposit dE assetX1000]

/-- An artificial state with the initialization flag cleared but 1000 units
of asset X already in the vault. -/
def sUF : Bank :=
  { initialized := ⟨0, 0, 0, 0⟩, balances := fun _ => 0,
    vault := fun f => if f = (7, 9) then 1000 else 0 }

/-- The state/notes pair produced by a concrete successful withdraw from
the scenario A state. -/
def wdPair : Bank × List Note :=
  okOr (sAB.withdraw dD assetX600 snW 0 0 1) (freshBank, [])

theorem step_deposit_initialized (b : Bank) (d : AccountId) (a : Asset) :
    ((step b (.deposit d a)).1).initialized = b.initialized := by
  unfold step Bank.deposit Bank.require_initialized
  by_cases h1 : b.initialized.w0 = 1 <;> simp [h1]
  by_cases h2 : assetAmount a ≤ MAX_DEPOSIT_AMOUNT <;> simp [h2]

theorem step_withdraw_initialized (b : Bank) (d : AccountId) (a : Asset)
    (sn : Word) (tg ax nt : Nat) :
    ((step b (.withdraw d a sn tg ax nt)).1).initialized = b.initialized := by
  unfold step Bank.withdraw Bank.create_p2id_note
  cases h : removeAsset b.vault a <;> simp [h]

theorem step_flag_mono (b : Bank) (c : Call) (h : b.initialized.w0 = 1) :
    ((step b c).1).initialized.w0 = 1 := by
  cases c with
  | init =>
    unfold step Bank.initializeBank
    have h0 : ¬ b.initialized.w0 = 0 := by omega
    simp [h0, h]
  | deposit d a => rw [step_deposit_initialized]; exact h
  | withdraw d a sn tg ax nt => rw [step_withdraw_initialized]; exact h

theorem exec_append (b : Bank) (cs ds : List Call) :
    exec b (cs ++ ds) = exec (exec b cs) ds := by
  induction cs generalizing b with
  | nil => rfl
  | cons c cs ih => simp [exec, ih]

theorem exec_flag_mono (cs : List Call) (b : Bank) (h : b.initialized.w0 = 1) :
    (exec b cs).initialized.w0 = 1 := by
  induction cs generalizing b with
  | nil => exact h
  | cons c cs ih => exact ih _ (step_flag_mono b c h)

theorem step_slot0_inv (b : Bank) (c : Call)
    (h : b.initialized = ⟨0, 0, 0, 0⟩ ∨ b.initialized = ⟨1, 0, 0, 0⟩) :
    (step b c).1.initialized = ⟨0, 0, 0, 0⟩ ∨ (step b c).1.initialized = ⟨1, 0, 0, 0⟩ := by
  cases c with
  | init =>
    unfold step Bank.initializeBank
    by_cases h0 : b.initialized.w0 = 0 <;> simp [h0, h]
  | deposit d a => rw [step_deposit_initialized]; exact h
  | withdraw d a sn tg ax nt => rw [step_withdraw_initialized]; exact h

theorem exec_slot0_inv (cs : List Call) (b : Bank)
    (h : b.initialized = ⟨0, 0, 0, 0⟩ ∨ b.initialized = ⟨1, 0, 0, 0⟩) :
    (exec b cs).initialized = ⟨0, 0, 0, 0⟩ ∨ (exec b cs).initialized = ⟨1, 0, 0, 0⟩ := by
  induction cs generalizing b with
  | nil => exact h
  | cons c cs ih => exact ih _ (step_slot0_inv b c h)

theorem feltSub_of_le (cur amt : Nat) (h1 : amt ≤ cur) (h2 : cur < P) :
    feltSub cur amt = cur - amt := by
  unfold feltSub
  rw [Nat.mod_eq_of_lt (lt_of_le_of_lt h1 h2)]
  have h3 : cur + (P - amt) = P + (cur - amt) := by
    have : amt ≤ P := Nat.le_of_lt (lt_of_le_of_lt h1 h2)
    omega
  rw [h3, Nat.add_mod_left]
  exact Nat.mod_eq_of_lt (by omega)

/-- C1: refuted on the code.  In the scenario A state, the stored balance of E for
asset X is 0, yet a withdraw of 600 units of X for E succeeds: it returns a
success carrying exactly one note and leaves the stored balance of E mutated to
p - 600 (the field-wrapped value), instead of failing with
`InsufficientFunds`, leaving the balance unchanged and emitting no note.
The source `withdraw` performs no balance pre-check. -/
theorem c1_withdraw_overdraft_succeeds :
    sAB.balances (balanceKey dE assetX600) = 0
    ∧ isOkE (sAB.withdraw dE assetX600 snW 0 0 1) = true
    ∧ (okOr (sAB.withdraw dE assetX600 snW 0 0 1) (freshBank, [])).1.balances
        (balanceKey dE assetX600) = P - 600
    ∧ (okOr (sAB.withdraw dE assetX600 snW 0 0 1) (freshBank, [])).2.length = 1 := by
  refine ⟨by decide, by decide, by decide, by decide⟩

/-- C3: refuted on the code.  After initializing and depositing 1000 units
of asset X (faucet id prefix 7, suffix 9) for depositor D, the deposit is
stored at key `[D.prefix, D.suffix, 7, 9]` with value 1000, but
`get_balance(D)` reads key `[D.prefix, D.suffix, 0, 0]` and returns 0. -/
theorem c3_get_balance_misses_deposit_key :
    sAB.balances (balanceKey dD assetX1000) = 1000
    ∧ sAB.get_balance dD = 0 := by
  refine ⟨by decide, by decide⟩

/-- C4: refuted on the code.  Over the sequence init; deposit 1000 X for D;
withdraw 600 X for E, key `[E.prefix, E.suffix, 7, 9]` has credited sum 0
and debited sum 600, but the stored balance is p - 600 (the wrapped field
value), not the integer 0 - 600: conservation fails because `withdraw`
debits without a balance pre-check. -/
theorem c4_conservation_fails_on_overdraft :
    credits freshBank callsABW (balanceKey dE assetX600) = 0
    ∧ debits freshBank callsABW (balanceKey dE assetX600) = 600
    ∧ (exec freshBank callsABW).balances (balanceKey dE assetX600) = P - 600
    ∧ ((credits freshBank callsABW (balanceKey dE assetX600) : Int)
        - (debits freshBank callsABW (balanceKey dE assetX600) : Int)
        ≠ ((exec freshBank callsABW).balances (balanceKey dE assetX600) : Int)) := by
  refine ⟨by decide, by decide, by decide, by decide⟩

/-- C2 counterexample: a state whose initialization flag is false in which a
withdraw call does not fail with `NotInitialized`: it succeeds and mutates
the stored balance.  The source `withdraw` never calls
`require_initialized`. -/
theorem c2_withdraw_ignores_init_flag_cex :
    sUF.initialized.w0 = 0
    ∧ isOkE (sUF.withdraw dE assetX600 snW 0 0 1) = true
    ∧ (okOr (sUF.withdraw dE assetX600 snW 0 0 1) (freshBank, [])).1.balances
        (balanceKey dE assetX600) = P - 600 := by
  refine ⟨by decide, by decide, by decide⟩

/-- C6 counterexample: a credit that wraps around the field modulus.  After
the overdraft sequence, the stored balance of E is p - 600; a further deposit of
1000 units for E yields stored balance 400, not (p - 600) + 1000: the
credit wrapped modulo p rather than saturating. -/
theorem c6_credit_wraps_cex :
    (exec freshBank callsABW).balances (balanceKey dE assetX600) = P - 600
    ∧ (exec freshBank callsABWD).balances (balanceKey dE assetX600) = 400
    ∧ (exec freshBank callsABW).balances (balanceKey dE assetX600) + 1000
        ≠ (exec freshBank callsABWD).balances (balanceKey dE assetX600) := by
  refine ⟨by decide, by decide, by decide⟩

/-- C2 (amended): on every state whose initialization flag is not set,
`deposit` fails with `NotInitialized` and performs no state mutation;
`withdraw` performs no initialization check at all — its outcome is the
same for every value of the slot-0 flag word, which it passes through
unchanged. -/
theorem c2_gate_on_deposit_only :
    (∀ (b : Bank) (d : AccountId) (a : Asset), ¬ b.initialized.w0 = 1 →
        b.deposit d a = .error .NotInitialized ∧ step b (.deposit d a) = (b, []))
    ∧ (∀ (b : Bank) (w : Word) (d : AccountId) (a : Asset) (sn : Word) (tg ax nt : Nat),
        Bank.withdraw { b with initialized := w } d a sn tg ax nt
          = Except.map (fun p => ({ p.1 with initialized := w }, p.2))
              (b.withdraw d a sn tg ax nt)) := by
  constructor
  · intro b d a h
    constructor
    · simp [Bank.deposit, Bank.require_initialized, h]
    · simp [step, Bank.deposit, Bank.require_initialized, h]
  · intro b w d a sn tg ax nt
    unfold Bank.withdraw Bank.create_p2id_note
    cases h : removeAsset b.vault a <;> simp [h, Except.map]

/-- Witness for the amended C2 theorem at concrete inputs: a deposit on the
fresh (uninitialized) bank fails with `NotInitialized` without mutation,
and a concrete withdraw is insensitive to the flag word. -/
theorem c2_gate_on_deposit_only_witness :
    (freshBank.deposit dD assetX1000 = .error .NotInitialized
      ∧ step freshBank (.deposit dD assetX1000) = (freshBank, []))
    ∧ Bank.withdraw { sUF with initialized := ⟨1, 0, 0, 0⟩ } dE assetX600 snW 0 0 1
        = Except.map (fun p => ({ p.1 with initialized := (⟨1, 0, 0, 0⟩ : Word) }, p.2))
            (sUF.withdraw dE assetX600 snW 0 0 1) :=
  ⟨c2_gate_on_deposit_only.1 freshBank dD assetX1000 (by decide),
   c2_gate_on_deposit_only.2 sUF ⟨1, 0, 0, 0⟩ dE assetX600 snW 0 0 1⟩

/-- C5: on an initialized bank, a deposit whose amount exceeds
`MAX_DEPOSIT_AMOUNT` fails with `DepositTooLarge` and performs no mutation
of the balances map, the flag, or the vault; a deposit whose amount is at
or below the limit passes the check and succeeds. -/
theorem c5_deposit_bound (b : Bank) (d : AccountId) (a : Asset)
    (h1 : b.initialized.w0 = 1) :
    (MAX_DEPOSIT_AMOUNT < assetAmount a →
        b.deposit d a = .error .DepositTooLarge ∧ step b (.deposit d a) = (b, []))
    ∧ (assetAmount a ≤ MAX_DEPOSIT_AMOUNT → isOkE (b.deposit d a) = true) := by
  constructor
  · intro h2
    have h2n : ¬ assetAmount a ≤ MAX_DEPOSIT_AMOUNT := by omega
    constructor
    · simp [Bank.deposit, Bank.require_initialized, h1, h2n]
    · simp [step, Bank.deposit, Bank.require_initialized, h1, h2n]
  · intro h2
    simp [isOkE, Bank.deposit, Bank.require_initialized, h1, h2]

/-- Witness for C5: on the freshly initialized bank, a deposit of 2,000,000
units is rejected with `DepositTooLarge` and leaves the state untouched,
while a deposit of 1000 units succeeds. -/
theorem c5_deposit_bound_witness :
    (sInit.deposit dD assetXBig = .error .DepositTooLarge
      ∧ step sInit (.deposit dD assetXBig) = (sInit, []))
    ∧ isOkE (sInit.deposit dD assetX1000) = true :=
  ⟨(c5_deposit_bound sInit dD assetXBig (by decide)).1 (by decide),
   (c5_deposit_bound sInit dD assetX1000 (by decide)).2 (by decide)⟩

/-- C6 (amended): the credit step of `deposit` adds the deposited amount to
the stored balance with wrapping addition modulo the field prime p: the new
stored balance is (old + amount) mod p, wrapping when old + amount ≥ p;
there is no saturating-checked addition in the source. -/
theorem c6_credit_adds_mod_p (b : Bank) (d : AccountId) (a : Asset)
    (h1 : b.initialized.w0 = 1) (h2 : assetAmount a ≤ MAX_DEPOSIT_AMOUNT) :
    b.deposit d a = .ok { b with
        balances := fun k => if k = balanceKey d a
          then (b.balances (balanceKey d a) + assetAmount a) % P
          else b.balances k,
        vault := addAsset b.vault a } := by
  simp [Bank.deposit, Bank.require_initialized, h1, h2, feltAdd]

/-- Witness for the amended C6 theorem: a concrete deposit of 1000 units on
the freshly initialized bank credits (0 + 1000) mod p at the balance key. -/
theorem c6_credit_adds_mod_p_witness :
    sInit.deposit dD assetX1000 = .ok { sInit with
        balances := fun k => if k = balanceKey dD assetX1000
          then (sInit.balances (balanceKey dD assetX1000) + assetAmount assetX1000) % P
          else sInit.balances k,
        vault := addAsset sInit.vault assetX1000 } :=
  c6_credit_adds_mod_p sInit dD assetX1000 (by decide) (by decide)

/-- C7: `initialize` on a bank whose flag is 0 sets slot 0 to [1,0,0,0];
`initialize` on a bank whose flag is already 1 fails with
`AlreadyInitialized` and the transaction leaves the state unchanged; and no
entry point ever resets the flag: every step preserves a set flag. -/
theorem c7_initialize_exactly_once (b : Bank) :
    (b.initialized.w0 = 0 → b.initializeBank = .ok { b with initialized := ⟨1, 0, 0, 0⟩ })
    ∧ (b.initialized.w0 = 1 →
        b.initializeBank = .error .AlreadyInitialized ∧ step b .init = (b, []))
    ∧ (∀ c, b.initialized.w0 = 1 → ((step b c).1).initialized.w0 = 1) := by
  refine ⟨?_, ?_, ?_⟩
  · intro h; simp [Bank.initializeBank, h]
  · intro h
    have h0 : ¬ b.initialized.w0 = 0 := by omega
    exact ⟨by simp [Bank.initializeBank, h0], by simp [step, Bank.initializeBank, h0]⟩
  · intro c h; exact step_flag_mono b c h

/-- Witness for C7 at concrete inputs: the fresh bank initializes, a second
initialize fails without mutation, and a deposit step keeps the flag set. -/
theorem c7_initialize_exactly_once_witness :
    freshBank.initializeBank = .ok { freshBank with initialized := ⟨1, 0, 0, 0⟩ }
    ∧ (sInit.initializeBank = .error .AlreadyInitialized ∧ step sInit .init = (sInit, []))
    ∧ ((step sInit (.deposit dD assetX1000)).1).initialized.w0 = 1 :=
  ⟨(c7_initialize_exactly_once freshBank).1 (by decide),
   (c7_initialize_exactly_once sInit).2.1 (by decide),
   (c7_initialize_exactly_once sInit).2.2 (.deposit dD assetX1000) (by decide)⟩

/-- C8: every successful withdraw emits exactly one note, whose recipient
commitment is computed from the given serial number, the fixed P2ID script
root and the 8-element zero-padded input vector
[depositor.suffix, depositor.prefix, 0, 0, 0, 0, 0, 0] in that order, and
which carries exactly the withdrawn asset; the same call debits the
stored balance of the depositor at the balance key by the asset amount (exactly,
whenever the amount is covered by the stored balance), and leaves the flag
unchanged.  Debit and emission happen in the same atomic transaction. -/
theorem c8_withdraw_emits_one_p2id_note (b : Bank) (d : AccountId) (a : Asset)
    (sn : Word) (tg ax nt : Nat) (b2 : Bank) (ns : List Note)
    (h : b.withdraw d a sn tg ax nt = .ok (b2, ns)) :
    ns = [{ tag := tg, aux := ax, noteType := nt, execHint := 0,
            recipient := { serialNum := sn, scriptRoot := p2id_note_root,
                           inputs := [d.suf, d.pre, 0, 0, 0, 0, 0, 0] },
            assets := [a] }]
    ∧ b2.balances (balanceKey d a) = feltSub (b.balances (balanceKey d a)) (assetAmount a)
    ∧ (assetAmount a ≤ b.balances (balanceKey d a) → b.balances (balanceKey d a) < P →
        b2.balances (balanceKey d a) = b.balances (balanceKey d a) - assetAmount a)
    ∧ b2.initialized = b.initialized := by
  simp only [Bank.withdraw, Bank.create_p2id_note] at h
  cases hr : removeAsset b.vault a with
  | error e => rw [hr] at h; exact absurd h (by simp)
  | ok v =>
    rw [hr] at h
    rw [Except.ok.injEq, Prod.mk.injEq] at h
    obtain ⟨hb, hn⟩ := h
    subst hb hn
    refine ⟨rfl, by simp, ?_, rfl⟩
    intro hle hlt
    simp [feltSub_of_le _ _ hle hlt]

/-- Witness for C8: the concrete withdraw of 600 units of X for D from
the scenario A state produces exactly the specified single note and debits
exactly 600 from the 1000-unit stored balance of D. -/
theorem c8_withdraw_emits_one_p2id_note_witness :
    wdPair.2 = [{ tag := 0, aux := 0, noteType := 1, execHint := 0,
                  recipient := { serialNum := snW, scriptRoot := p2id_note_root,
                                 inputs := [dD.suf, dD.pre, 0, 0, 0, 0, 0, 0] },
                  assets := [assetX600] }]
    ∧ wdPair.1.balances (balanceKey dD assetX600)
        = sAB.balances (balanceKey dD assetX600) - assetAmount assetX600 := by
  have H := c8_withdraw_emits_one_p2id_note sAB dD assetX600 snW 0 0 1
      wdPair.1 wdPair.2 rfl
  exact ⟨H.1, H.2.2.1 (by decide) (by decide)⟩

/-- C9: in every state reachable by a sequence of entry-point transactions
from the fresh bank, slot 0 holds [0,0,0,0] or [1,0,0,0]; deposit and
withdraw steps never write slot 0; and once the first element of the flag is 1
it stays 1 under every further sequence. -/
theorem c9_reachable_slot0 :
    (∀ cs : List Call,
      (exec freshBank cs).initialized = ⟨0, 0, 0, 0⟩
      ∨ (exec freshBank cs).initialized = ⟨1, 0, 0, 0⟩)
    ∧ (∀ (b : Bank) (d : AccountId) (a : Asset),
        ((step b (.deposit d a)).1).initialized = b.initialized)
    ∧ (∀ (b : Bank) (d : AccountId) (a : Asset) (sn : Word) (tg ax nt : Nat),
        ((step b (.withdraw d a sn tg ax nt)).1).initialized = b.initialized)
    ∧ (∀ cs ds : List Call, (exec freshBank cs).initialized.w0 = 1 →
        (exec freshBank (cs ++ ds)).initialized.w0 = 1) := by
  refine ⟨?_, step_deposit_initialized, step_withdraw_initialized, ?_⟩
  · intro cs; exact exec_slot0_inv cs freshBank (Or.inl rfl)
  · intro cs ds h; rw [exec_append]; exact exec_flag_mono ds _ h

/-- Witness for C9 at concrete inputs: after a concrete sequence the slot-0
word is one of the two legal values, and once set the flag survives a
further concrete sequence. -/
theorem c9_reachable_slot0_witness :
    ((exec freshBank [Call.init]).initialized = ⟨0, 0, 0, 0⟩
      ∨ (exec freshBank [Call.init]).initialized = ⟨1, 0, 0, 0⟩)
    ∧ (exec freshBank ([Call.init] ++ callsABW)).initialized.w0 = 1 :=
  ⟨c9_reachable_slot0.1 [Call.init],
   c9_reachable_slot0.2.2.2 [Call.init] callsABW (by decide)⟩

/-- C10: a deposit or withdraw transaction mutates at most the single
balances-map entry at the key built from the given depositor and the
faucet id of the asset; every entry at any other key, and the initialization
flag, are unchanged by the transaction (also when it fails). -/
theorem c10_frame_other_keys (b : Bank) (d : AccountId) (a : Asset)
    (sn : Word) (tg ax nt : Nat) (k : Word) (hk : k ≠ balanceKey d a) :
    ((step b (.deposit d a)).1).balances k = b.balances k
    ∧ ((step b (.deposit d a)).1).initialized = b.initialized
    ∧ ((step b (.withdraw d a sn tg ax nt)).1).balances k = b.balances k
    ∧ ((step b (.withdraw d a sn tg ax nt)).1).initialized = b.initialized := by
  refine ⟨?_, step_deposit_initialized b d a, ?_, step_withdraw_initialized b d a sn tg ax nt⟩
  · unfold step Bank.deposit Bank.require_initialized
    by_cases h1 : b.initialized.w0 = 1 <;> simp [h1]
    by_cases h2 : assetAmount a ≤ MAX_DEPOSIT_AMOUNT <;> simp [h2, hk]
  · unfold step Bank.withdraw Bank.create_p2id_note
    cases h : removeAsset b.vault a <;> simp [h, hk]

/-- Witness for C10 at concrete inputs: the all-zero key differs from the
balance key of the scenario and its entry and the flag survive a concrete
deposit and a concrete withdraw. -/
theorem c10_frame_other_keys_witness :
    ((step sAB (.deposit dD assetX1000)).1).balances ⟨0, 0, 0, 0⟩
        = sAB.balances ⟨0, 0, 0, 0⟩
    ∧ ((step sAB (.deposit dD assetX1000)).1).initialized = sAB.initialized
    ∧ ((step sAB (.withdraw dD assetX1000 snW 0 0 1)).1).balances ⟨0, 0, 0, 0⟩
        = sAB.balances ⟨0, 0, 0, 0⟩
    ∧ ((step sAB (.withdraw dD assetX1000 snW 0 0 1)).1).initialized = sAB.initialized :=
  c10_frame_other_keys sAB dD assetX1000 snW 0 0 1 ⟨0, 0, 0, 0⟩ (by decide)
